import Mathlib

/-!
Verification of the live audio-capture / transcription pipeline of the
minutevault repository.

The repository contains several near-duplicate implementations of the
`useAudioRecording` hook.  We embed the three implementations the claims
refer to:

* `RetryHook`  — the retry/backoff implementation (src/unnamed/part_004,
  second document: `attemptConnection`, `appendTranscript`,
  `onCommittedTranscript`, `stopRecording` with the 1500 ms commit-flush
  poll loop).
* `WsHook`     — the raw-WebSocket implementation in
  src/src/hooks/useAudioRecording.ts (PCM encoder in
  `processor.onaudioprocess`, `ws.onmessage`, `cleanupAudio`,
  `stopRecording`, unmount teardown).
* `WsLegacy`   — the first document of src/unnamed/part_004 (WebSocket
  implementation whose committed-transcript handler reads
  `message.speaker`).

Times are modelled in milliseconds as naturals; audio samples as
rationals; JavaScript truthiness of an optional string is "present and
non-empty".
-/

namespace RetryHook

/-- Maximum number of retries after a failed connect attempt
(`const maxRetries = 3` in the source). -/
def maxRetries : Nat := 3

/-- Result of running `attemptConnection`: whether the session got
connected, how many connect attempts (token fetch plus `scribe.connect`)
were made, and the backoff delays (ms) slept between consecutive
attempts. -/
structure ConnRun where
  connected : Bool
  attempts : Nat
  delays : List Nat
deriving DecidableEq, Repr

/-- Embedding of `attemptConnection` (src/unnamed/part_004, lines
376-435).  Each entry of `outcomes` is the result of one attempt: the
token fetch plus `scribe.connect`, raced against the 15 s timeout
(`true` = success).  `retryCount` models `retryCountRef.current`, which
is 0 on a fresh mount.  On failure with `retryCount < maxRetries` the
source increments the counter, sleeps `1000 * retryCountRef.current` ms
and recurses; otherwise it rethrows. -/
def attemptConnection : List Bool → Nat → ConnRun
  | [], _ => { connected := false, attempts := 0, delays := [] }
  | o :: rest, retryCount =>
    if o then
      { connected := true, attempts := 1, delays := [] }
    else if retryCount < maxRetries then
      let r := attemptConnection rest (retryCount + 1)
      { connected := r.connected, attempts := r.attempts + 1,
        delays := 1000 * (retryCount + 1) :: r.delays }
    else
      { connected := false, attempts := 1, delays := [] }

/-- Embedding of the tail of `startRecording`: it awaits
`attemptConnection()` and returns its success, returning `false` when
the final attempt threw. -/
def startRecordingOutcome (outcomes : List Bool) : Bool :=
  (attemptConnection outcomes 0).connected

/-- A transcript segment as built by `appendTranscript`
(src/unnamed/part_004, lines 299-318).  The source interface is
`{ id, text, timestamp, speaker }`; `seq` is the value of
`transcriptCounterRef.current` captured at creation (the source embeds
it in the `id` string), i.e. the per-segment sequence counter. -/
structure Segment where
  id : String
  text : String
  timestamp : Nat
  speaker : String
  seq : Nat
deriving DecidableEq, Repr

/-- The accumulator state: `transcriptCounterRef.current`,
`transcriptsRef.current` and the `speakersDetected` state. -/
structure AccState where
  transcriptCounter : Nat
  transcripts : List Segment
  speakersDetected : Nat
deriving DecidableEq, Repr

/-- State after `startRecording` resets the refs: counter 0, no
transcripts, no speakers. -/
def initAcc : AccState :=
  { transcriptCounter := 0, transcripts := [], speakersDetected := 0 }

/-- Embedding of `appendTranscript` (src/unnamed/part_004, lines
299-318).  `startTime` models `startTimeRef.current` and `now` the value
of `Date.now()` when the committed event is handled. -/
def appendTranscript (startTime now : Nat) (s : AccState) (text : String) :
    AccState :=
  let counter := s.transcriptCounter + 1
  let timestamp := now - startTime
  let speakerLabel := "Speaker " ++ toString ((counter - 1) % 4 + 1)
  let seg : Segment :=
    { id := "transcript-" ++ toString counter ++ "-" ++ toString now,
      text := text, timestamp := timestamp, speaker := speakerLabel,
      seq := counter }
  { transcriptCounter := counter,
    transcripts := s.transcripts ++ [seg],
    speakersDetected := max s.speakersDetected ((counter - 1) % 4 + 1) }

/-- JavaScript `String.prototype.trim`: strip leading and trailing
whitespace (structural embedding over the character list). -/
def jsTrim (s : String) : String :=
  String.mk
    (((s.data.dropWhile Char.isWhitespace).reverse.dropWhile
        Char.isWhitespace).reverse)

/-- Embedding of the `onCommittedTranscript` callback
(src/unnamed/part_004, lines 334-338 and 842-846):
`const text = data.text?.trim(); if (text) appendTranscript(text);`.
An absent text, or a text that trims to the empty string, is falsy and
appends nothing. -/
def onCommittedTranscript (startTime now : Nat) (s : AccState)
    (text : Option String) : AccState :=
  match text with
  | none => s
  | some t =>
    let tt := jsTrim t
    if tt = "" then s else appendTranscript startTime now s tt

/-- Folding a list of committed events `(text?, arrival time)` through
the handler, in arrival order. -/
def processEvents (startTime : Nat) (s : AccState)
    (events : List (Option String × Nat)) : AccState :=
  events.foldl (fun acc e => onCommittedTranscript startTime e.2 acc e.1) s

/-- Invariant of the accumulator at wall-clock time `t`: every stored
sequence number is at most the counter, sequence numbers are strictly
increasing in append order, and timestamps are at most `t - startTime`
and non-decreasing in append order. -/
def SeqOffsetInv (startTime : Nat) (s : AccState) (t : Nat) : Prop :=
  (∀ g ∈ s.transcripts, g.seq ≤ s.transcriptCounter) ∧
  List.Chain' (fun a b => a.seq < b.seq) s.transcripts ∧
  (∀ g ∈ s.transcripts, g.timestamp ≤ t - startTime) ∧
  List.Chain' (fun a b => a.timestamp ≤ b.timestamp) s.transcripts

/-- Grace period of the commit-flush wait in `stopRecording`
(`Date.now() - waitStartedAt < 1500`). -/
def gracePeriodMs : Nat := 1500

/-- Poll interval of the commit-flush wait (`setTimeout(resolve, 100)`). -/
def pollIntervalMs : Nat := 100

/-- Whether the flushed committed event has been delivered by time
`elapsed` (ms since `commit()` was issued).  `arrival = none` means it
never arrives. -/
def arrived (arrival : Option Nat) (elapsed : Nat) : Bool :=
  match arrival with
  | none => false
  | some t => decide (t ≤ elapsed)

/-- Embedding of the poll loop in `stopRecording`
(src/unnamed/part_004, lines 478-484): while less than `gracePeriodMs`
has elapsed and `transcriptsRef.current.length === beforeLen` (i.e. the
flushed event has not been delivered), sleep `pollIntervalMs`.  Returns
the elapsed time at loop exit.  `fuel` bounds the recursion; 16 polls
always reach the 1500 ms bound from elapsed 0. -/
def waitForCommit (arrival : Option Nat) : Nat → Nat → Nat
  | elapsed, 0 => elapsed
  | elapsed, fuel + 1 =>
    if elapsed < gracePeriodMs ∧ arrived arrival elapsed = false then
      waitForCommit arrival (elapsed + pollIntervalMs) fuel
    else elapsed

/-- Result of `stopRecording`: the transcript list it returns, plus
flags that `scribe.commit()` and `scribe.disconnect()` were awaited and
how long the poll loop waited. -/
structure StopRun where
  transcripts : List Segment
  commitIssued : Bool
  disconnected : Bool
  waitedMs : Nat
deriving DecidableEq, Repr

/-- Embedding of `stopRecording` (src/unnamed/part_004, lines 465-492).
`pending` is `transcriptsRef.current` when `stop` is called (length
`beforeLen`); `arrival` is the delivery time of the final committed
segment flushed by `commit()`, measured from the start of the wait;
`finalSeg` is that segment.  The event is appended when it is delivered
no later than the poll at which the loop exits; `disconnect()` after the
loop stops any later delivery. -/
def stopRecording (pending : List Segment) (arrival : Option Nat)
    (finalSeg : Segment) : StopRun :=
  let e := waitForCommit arrival 0 16
  { transcripts :=
      if arrived arrival e then pending ++ [finalSeg] else pending,
    commitIssued := true, disconnected := true, waitedMs := e }

end RetryHook

namespace WsHook

/-- Lifecycle of the `WebSocket` object held in `wsRef`. -/
inductive WsPhase where
  | connecting
  | opened
  | closed
deriving DecidableEq, Repr

/-- A transcript segment of src/src/hooks/useAudioRecording.ts:
`{ id, text, timestamp, speaker }`.  `crypto.randomUUID()` is opaque and
modelled as the empty string. -/
structure Segment where
  id : String
  text : String
  timestamp : Nat
  speaker : String
deriving DecidableEq, Repr

/-- The state of the `useAudioRecording` hook of
src/src/hooks/useAudioRecording.ts: the React state fields, the refs,
and the liveness of the microphone tracks behind `streamRef`
(`micActive`). -/
structure HookState where
  isConnecting : Bool
  isConnected : Bool
  transcripts : List Segment
  partialText : String
  speakerSet : List String
  speakersDetected : Nat
  error : Option String
  startTime : Nat
  micActive : Bool
  streamRef : Bool
  processorRef : Bool
  sourceRef : Bool
  audioCtxRef : Bool
  ws : Option WsPhase
deriving DecidableEq, Repr

/-- Freshly mounted hook: all state at its `useState` / `useRef`
initial values. -/
def initHook : HookState :=
  { isConnecting := false, isConnected := false, transcripts := [],
    partialText := "", speakerSet := [], speakersDetected := 0,
    error := none, startTime := 0, micActive := false, streamRef := false,
    processorRef := false, sourceRef := false, audioCtxRef := false,
    ws := none }

/-- JavaScript truthiness of an optional string field: present and
non-empty. -/
def truthy : Option String → Bool
  | none => false
  | some t => decide (t ≠ "")

/-- `Set.add` on a JavaScript `Set<string>`, which keeps insertion
order and ignores duplicates. -/
def insertUnique (l : List String) (x : String) : List String :=
  if x ∈ l then l else l ++ [x]

/-- Embedding of `cleanupAudio` (useAudioRecording.ts lines 191-208):
disconnect and null the processor and source refs, close and null the
audio context ref, stop every track of `streamRef.current` and null it.
The microphone tracks are stopped exactly when `streamRef` was set. -/
def cleanupAudio (s : HookState) : HookState :=
  { s with
    processorRef := false, sourceRef := false, audioCtxRef := false,
    streamRef := false,
    micActive := if s.streamRef then false else s.micActive }

/-- Embedding of `stopRecording` (useAudioRecording.ts lines 210-223):
close the socket only when its `readyState` is `OPEN`, run
`cleanupAudio`, clear the connected flag and the partial text. -/
def stopRecording (s : HookState) : HookState :=
  let s1 := if s.ws = some WsPhase.opened then { s with ws := some WsPhase.closed } else s
  { cleanupAudio s1 with isConnected := false, partialText := "" }

/-- Embedding of the unmount effect (useAudioRecording.ts lines
237-244): `wsRef.current.close()` whenever the ref is set, whatever the
socket phase, then `cleanupAudio`. -/
def unmountCleanup (s : HookState) : HookState :=
  let s1 := if s.ws = none then s else { s with ws := some WsPhase.closed }
  cleanupAudio s1

/-- First synchronous slice of `startRecording` (lines 44-46):
clear the error, raise the connecting flag, then suspend on
`getUserMedia`. -/
def startBegin (s : HookState) : HookState :=
  { s with error := none, isConnecting := true }

/-- Resumption of `startRecording` when `getUserMedia` resolves with a
live stream (lines 50-55): `streamRef.current = stream`; the hook then
suspends on the token fetch. -/
def micResolved (s : HookState) : HookState :=
  { s with micActive := true, streamRef := true }

/-- Resumption of `startRecording` when the token fetch succeeds (lines
72-76): a `WebSocket` is constructed (phase CONNECTING) and stored in
`wsRef`. -/
def tokenResolved (s : HookState) : HookState :=
  { s with ws := some WsPhase.connecting }

/-- Resumption of `startRecording` when the token fetch fails (lines
62-68): record the error, stop the tracks of the local `stream` (the
ref itself is not nulled), drop the connecting flag. -/
def tokenFailed (s : HookState) : HookState :=
  { s with
    error := some "Failed to initialize transcription service. Please try again.",
    micActive := false, isConnecting := false }

/-- Embedding of `ws.onopen` (lines 78-121), which fires on a
CONNECTING socket: reset the session clock and the per-session
accumulators, flip to connected, and build the audio pipeline
(AudioContext, media-stream source, script processor). -/
def wsOnOpen (now : Nat) (s : HookState) : HookState :=
  if s.ws = some WsPhase.connecting then
    { s with
      startTime := now, speakerSet := [], transcripts := [],
      speakersDetected := 0, isConnected := true, isConnecting := false,
      audioCtxRef := true, sourceRef := true, processorRef := true,
      ws := some WsPhase.opened }
  else s

/-- An inbound WebSocket message, adapted from the backend wire shape
used in useAudioRecording.ts: a `message_type` discriminator plus
optional `text` and `error` fields. -/
structure WsMessage where
  messageType : String
  text : Option String
  errorField : Option String
deriving DecidableEq, Repr

/-- Embedding of `ws.onmessage` (useAudioRecording.ts lines 123-169).
The source tests the three branches in sequence on the same message:
partial transcripts overwrite `partialText`; committed transcripts
append a segment labelled `Speaker (speakerSet.size + 1)` and clear the
partial text; `error` / `input_error` messages record `message.error`
when it is truthy.  Nothing else is touched by the error branch. -/
def wsOnMessage (now : Nat) (s : HookState) (msg : WsMessage) : HookState :=
  let s1 :=
    if msg.messageType = "partial_transcript" ∧ truthy msg.text = true then
      { s with partialText := msg.text.getD "" }
    else s
  let s2 :=
    if msg.messageType = "committed_transcript" ∧ truthy msg.text = true then
      let timestamp := now - s1.startTime
      let speakerNum := s1.speakerSet.length + 1
      let speakerLabel := "Speaker " ++ toString speakerNum
      let set2 := insertUnique s1.speakerSet speakerLabel
      { s1 with
        speakerSet := set2, speakersDetected := set2.length,
        transcripts := s1.transcripts ++
          [{ id := "", text := msg.text.getD "", timestamp := timestamp,
             speaker := speakerLabel }],
        partialText := "" }
    else s1
  if (msg.messageType = "error" ∨ msg.messageType = "input_error") ∧
      truthy msg.errorField = true then
    { s2 with error := msg.errorField }
  else s2

/-- Embedding of `ws.onerror` (lines 171-174). -/
def wsOnError (s : HookState) : HookState :=
  { s with error := some "Connection error. Please try again." }

/-- Embedding of `ws.onclose` (lines 176-180): clear the connected flag
and run `cleanupAudio`. -/
def wsOnClose (s : HookState) : HookState :=
  cleanupAudio { s with isConnected := false }

/-- Clamp of one float sample in `processor.onaudioprocess`
(useAudioRecording.ts line 103): `Math.max(-1, Math.min(1, x))`. -/
def clampSample (x : ℚ) : ℚ := max (-1) (min 1 x)

/-- Scaled sample before storage
(line 104): `s < 0 ? s * 0x8000 : s * 0x7fff` applied to the clamped
sample. -/
def scaleSample (x : ℚ) : ℚ :=
  if clampSample x < 0 then clampSample x * 32768 else clampSample x * 32767

/-- Storing into an `Int16Array` truncates the number toward zero (the
ToInt16 conversion); the scaled value here is always in int16 range, so
no wrap-around occurs. -/
def toInt16 (x : ℚ) : ℤ :=
  if 0 ≤ scaleSample x then Int.floor (scaleSample x) else Int.ceil (scaleSample x)

end WsHook

namespace WsLegacy

/-- An inbound message of the first useAudioRecording document in
src/unnamed/part_004 (lines 108-151): discriminator `type` plus optional
`text`, `speaker` and `message` fields. -/
structure LMessage where
  msgType : String
  text : Option String
  speaker : Option String
  messageField : Option String
deriving DecidableEq, Repr

/-- The per-session state this handler touches. -/
structure LState where
  startTime : Nat
  speakerSet : List String
  speakersDetected : Nat
  transcripts : List WsHook.Segment
  partialText : String
  error : Option String
deriving DecidableEq, Repr

/-- Embedding of `ws.onmessage` of the first document in
src/unnamed/part_004 (lines 108-151).  The committed branch (lines
119-136) labels the segment
`message.speaker || "Speaker " ++ (speakerSet.size % 4 + 1)`: a truthy
backend identifier is used verbatim as the display label, and only the
falsy case falls back to the size-based rotation.  The error branch
records `message.message || "Transcription error occurred"`. -/
def onMessage (now : Nat) (s : LState) (msg : LMessage) : LState :=
  let s1 :=
    if msg.msgType = "partial_transcript" ∧ WsHook.truthy msg.text = true then
      { s with partialText := msg.text.getD "" }
    else s
  let s2 :=
    if (msg.msgType = "committed_transcript" ∨ msg.msgType = "final_transcript") ∧
        WsHook.truthy msg.text = true then
      let timestamp := now - s1.startTime
      let speakerLabel :=
        if WsHook.truthy msg.speaker = true then msg.speaker.getD ""
        else "Speaker " ++ toString (s1.speakerSet.length % 4 + 1)
      let set2 := WsHook.insertUnique s1.speakerSet speakerLabel
      { s1 with
        speakerSet := set2, speakersDetected := set2.length,
        transcripts := s1.transcripts ++
          [{ id := "", text := msg.text.getD "", timestamp := timestamp,
             speaker := speakerLabel }],
        partialText := "" }
    else s1
  if msg.msgType = "error" then
    { s2 with error := some (if WsHook.truthy msg.messageField = true then
        msg.messageField.getD "" else "Transcription error occurred") }
  else s2

/-- Fresh session state after `ws.onopen` (lines 77-85). -/
def initL : LState :=
  { startTime := 0, speakerSet := [], speakersDetected := 0,
    transcripts := [], partialText := "", error := none }

/-- A committed event carrying a backend speaker identifier. -/
def committedMsg (text sp : String) : LMessage :=
  { msgType := "committed_transcript", text := some text,
    speaker := some sp, messageField := none }

/-- Folding committed events with identifiers through the handler. -/
def runCommitted (s : LState) (events : List (String × String)) : LState :=
  events.foldl (fun acc e => onMessage 0 acc (committedMsg e.1 e.2)) s

end WsLegacy

namespace RetryHook

/-- An element of `getLast?` is an element of the list. -/
theorem mem_of_getLastOpt {α : Type} {l : List α} {x : α}
    (h : x ∈ l.getLast?) : x ∈ l := by
  rcases List.mem_getLast?_eq_getLast h with ⟨hne, rfl⟩
  exact List.getLast_mem hne

/-- The poll loop never overshoots the grace period when it starts on a
100 ms grid below it. -/
theorem waitForCommit_le (arrival : Option Nat) :
    ∀ fuel elapsed, elapsed % 100 = 0 → elapsed ≤ gracePeriodMs →
      waitForCommit arrival elapsed fuel ≤ gracePeriodMs := by
  intro fuel
  induction fuel with
  | zero => intro elapsed _ h2; simpa [waitForCommit] using h2
  | succ n ih =>
    intro elapsed h1 h2
    by_cases hc : elapsed < gracePeriodMs ∧ arrived arrival elapsed = false
    · have hgrid : (elapsed + pollIntervalMs) % 100 = 0 := by
        simp [pollIntervalMs]; omega
      have hle : elapsed + pollIntervalMs ≤ gracePeriodMs := by
        simp [pollIntervalMs, gracePeriodMs] at h2 hc ⊢
        omega
      simpa [waitForCommit, hc] using ih (elapsed + pollIntervalMs) hgrid hle
    · simpa [waitForCommit, hc] using h2

/-- With enough fuel the poll loop only exits because the grace period
elapsed or the event was delivered. -/
theorem waitForCommit_exitCondition (arrival : Option Nat) :
    ∀ fuel elapsed, gracePeriodMs ≤ elapsed + pollIntervalMs * fuel →
      gracePeriodMs ≤ waitForCommit arrival elapsed fuel ∨
        arrived arrival (waitForCommit arrival elapsed fuel) = true := by
  intro fuel
  induction fuel with
  | zero => intro elapsed h; left; simpa [waitForCommit] using h
  | succ n ih =>
    intro elapsed h
    by_cases hc : elapsed < gracePeriodMs ∧ arrived arrival elapsed = false
    · have h2 : gracePeriodMs ≤ (elapsed + pollIntervalMs) + pollIntervalMs * n := by
        simp [pollIntervalMs] at h ⊢; omega
      simpa [waitForCommit, hc] using ih (elapsed + pollIntervalMs) h2
    · rw [waitForCommit, if_neg hc]
      rcases Decidable.not_and_iff_or_not.mp hc with h1 | h1
      · left; omega
      · right; simpa using h1

/-- The accumulator invariant is monotone in the time bound. -/
theorem seqOffsetInv_mono {startTime : Nat} {s : AccState} {t0 t1 : Nat}
    (h01 : t0 ≤ t1) (h : SeqOffsetInv startTime s t0) :
    SeqOffsetInv startTime s t1 := by
  obtain ⟨h1, h2, h3, h4⟩ := h
  exact ⟨h1, h2,
    fun g hg => le_trans (h3 g hg) (Nat.sub_le_sub_right h01 startTime), h4⟩

/-- One committed event preserves the accumulator invariant, moving the
time bound to the handling time. -/
theorem seqOffsetInv_onCommitted (startTime now t0 : Nat) (s : AccState)
    (txt : Option String) (h0 : t0 ≤ now) (h : SeqOffsetInv startTime s t0) :
    SeqOffsetInv startTime (onCommittedTranscript startTime now s txt) now := by
  have hmono : SeqOffsetInv startTime s now := seqOffsetInv_mono h0 h
  match txt with
  | none => simpa [onCommittedTranscript] using hmono
  | some t =>
    by_cases ht : jsTrim t = ""
    · simpa [onCommittedTranscript, ht] using hmono
    · obtain ⟨h1, h2, h3, h4⟩ := hmono
      rw [onCommittedTranscript]
      simp only [ht, if_false]
      refine ⟨?_, ?_, ?_, ?_⟩
      · intro g hg
        rcases List.mem_append.mp hg with hg | hg
        · exact le_trans (h1 g hg) (Nat.le_succ _)
        · simp only [List.mem_singleton] at hg
          subst hg
          simp [appendTranscript]
      · rw [appendTranscript]
        refine List.chain'_append.mpr ⟨h2, List.chain'_singleton _, ?_⟩
        intro x hx y hy
        simp only [List.head?_cons, Option.mem_def, Option.some.injEq] at hy
        subst hy
        have := h1 x (mem_of_getLastOpt hx)
        simp only []
        omega
      · intro g hg
        rcases List.mem_append.mp hg with hg | hg
        · exact h3 g hg
        · simp only [List.mem_singleton] at hg
          subst hg
          simp [appendTranscript]
      · rw [appendTranscript]
        refine List.chain'_append.mpr ⟨h4, List.chain'_singleton _, ?_⟩
        intro x hx y hy
        simp only [List.head?_cons, Option.mem_def, Option.some.injEq] at hy
        subst hy
        have := h3 x (mem_of_getLastOpt hx)
        simpa using this

/-- Folding committed events whose handling times are non-decreasing
preserves the accumulator invariant. -/
theorem seqOffsetInv_processEvents (startTime : Nat) :
    ∀ (events : List (Option String × Nat)) (s : AccState) (t0 : Nat),
      SeqOffsetInv startTime s t0 →
      List.Chain' (fun a b => a ≤ b) (t0 :: events.map Prod.snd) →
      ∃ t1, SeqOffsetInv startTime (processEvents startTime s events) t1 := by
  intro events
  induction events with
  | nil =>
    intro s t0 h _
    exact ⟨t0, by simpa [processEvents] using h⟩
  | cons e rest ih =>
    intro s t0 h hchain
    simp only [List.map_cons] at hchain
    rw [List.chain'_cons] at hchain
    obtain ⟨h0, hchain⟩ := hchain
    have hstep := seqOffsetInv_onCommitted startTime e.2 t0 s e.1 h0 h
    have hfold : processEvents startTime s (e :: rest) =
        processEvents startTime (onCommittedTranscript startTime e.2 s e.1) rest := by
      simp [processEvents]
    rw [hfold]
    exact ih _ e.2 hstep hchain

/-- Every segment the accumulator ever stores carries the rotation
label determined by its sequence number. -/
theorem speakerRotation_onCommitted (startTime now : Nat) (s : AccState)
    (txt : Option String)
    (h : ∀ g ∈ s.transcripts,
      g.speaker = "Speaker " ++ toString ((g.seq - 1) % 4 + 1)) :
    ∀ g ∈ (onCommittedTranscript startTime now s txt).transcripts,
      g.speaker = "Speaker " ++ toString ((g.seq - 1) % 4 + 1) := by
  match txt with
  | none => simpa [onCommittedTranscript] using h
  | some t =>
    by_cases ht : jsTrim t = ""
    · simpa [onCommittedTranscript, ht] using h
    · rw [onCommittedTranscript]
      simp only [ht, if_false]
      intro g hg
      rw [appendTranscript] at hg
      simp only [] at hg
      rcases List.mem_append.mp hg with hg | hg
      · exact h g hg
      · simp only [List.mem_singleton] at hg
        subst hg
        simp

/-- The rotation-label property is preserved by any event fold. -/
theorem speakerRotation_processEvents (startTime : Nat) :
    ∀ (events : List (Option String × Nat)) (s : AccState),
      (∀ g ∈ s.transcripts,
        g.speaker = "Speaker " ++ toString ((g.seq - 1) % 4 + 1)) →
      ∀ g ∈ (processEvents startTime s events).transcripts,
        g.speaker = "Speaker " ++ toString ((g.seq - 1) % 4 + 1) := by
  intro events
  induction events with
  | nil => intro s h; simpa [processEvents] using h
  | cons e rest ih =>
    intro s h
    have hfold : processEvents startTime s (e :: rest) =
        processEvents startTime (onCommittedTranscript startTime e.2 s e.1) rest := by
      simp [processEvents]
    rw [hfold]
    exact ih _ (speakerRotation_onCommitted startTime e.2 s e.1 h)

end RetryHook

/-- C1: with three connect failures then a success, `startRecording`
reaches the connected state after exactly 4 attempts with backoff delays
1000, 2000, 3000 ms between consecutive attempts; with four consecutive
failures the run is terminal (`startRecording` returns failure) after
exactly 4 attempts, a 5th attempt never being made whatever outcomes
would have followed. -/
theorem claim_C1_retry_policy :
    (∀ rest : List Bool,
      RetryHook.attemptConnection (false :: false :: false :: true :: rest) 0 =
        { connected := true, attempts := 4, delays := [1000, 2000, 3000] }) ∧
    (∀ rest : List Bool,
      RetryHook.attemptConnection (false :: false :: false :: false :: rest) 0 =
        { connected := false, attempts := 4, delays := [1000, 2000, 3000] }) ∧
    (∀ rest : List Bool,
      RetryHook.startRecordingOutcome (false :: false :: false :: false :: rest) = false) := by
  refine ⟨fun rest => ?_, fun rest => ?_, fun rest => ?_⟩ <;>
    simp [RetryHook.attemptConnection, RetryHook.maxRetries,
      RetryHook.startRecordingOutcome]

/-- C2: `stopRecording` issues the commit instruction and waits at most
1500 ms; a final committed segment delivered strictly within the grace
period is included in the returned transcript list, one delivered only
after it is excluded, and the disconnect is performed in every case. -/
theorem claim_C2_commit_flush_on_stop
    (pending : List RetryHook.Segment) (finalSeg : RetryHook.Segment)
    (arrival : Option Nat) :
    (RetryHook.stopRecording pending arrival finalSeg).commitIssued = true ∧
    (RetryHook.stopRecording pending arrival finalSeg).disconnected = true ∧
    (RetryHook.stopRecording pending arrival finalSeg).waitedMs ≤ 1500 ∧
    (∀ t, arrival = some t → t < 1500 →
      (RetryHook.stopRecording pending arrival finalSeg).transcripts =
        pending ++ [finalSeg]) ∧
    (∀ t, arrival = some t → 1500 < t →
      (RetryHook.stopRecording pending arrival finalSeg).transcripts =
        pending) := by
  refine ⟨rfl, rfl, ?_, ?_, ?_⟩
  · simpa [RetryHook.stopRecording, RetryHook.gracePeriodMs] using
      RetryHook.waitForCommit_le arrival 16 0 (by omega) (by
        simp [RetryHook.gracePeriodMs])
  · intro t ht hlt
    subst ht
    have hexit := RetryHook.waitForCommit_exitCondition (some t) 16 0 (by
      simp [RetryHook.gracePeriodMs, RetryHook.pollIntervalMs])
    have harr : RetryHook.arrived (some t)
        (RetryHook.waitForCommit (some t) 0 16) = true := by
      rcases hexit with h | h
      · simp only [RetryHook.arrived, decide_eq_true_eq]
        simp [RetryHook.gracePeriodMs] at h
        omega
      · exact h
    simp [RetryHook.stopRecording, harr]
  · intro t ht hgt
    subst ht
    have hle := RetryHook.waitForCommit_le (some t) 16 0 (by omega) (by
      simp [RetryHook.gracePeriodMs])
    have harr : RetryHook.arrived (some t)
        (RetryHook.waitForCommit (some t) 0 16) = false := by
      simp only [RetryHook.arrived, decide_eq_false_iff_not]
      simp [RetryHook.gracePeriodMs] at hle
      omega
    simp [RetryHook.stopRecording, harr]

/-- Witness for C2 at concrete inputs: an event arriving 300 ms into the
wait is returned; one arriving at 2000 ms is not; both runs disconnect. -/
theorem claim_C2_commit_flush_on_stop_witness :
    (RetryHook.stopRecording [] (some 300)
        { id := "x", text := "hello", timestamp := 0,
          speaker := "Speaker 1", seq := 1 }).transcripts =
      [{ id := "x", text := "hello", timestamp := 0,
         speaker := "Speaker 1", seq := 1 }] ∧
    (RetryHook.stopRecording [] (some 2000)
        { id := "x", text := "hello", timestamp := 0,
          speaker := "Speaker 1", seq := 1 }).transcripts = [] ∧
    (RetryHook.stopRecording [] (some 2000)
        { id := "x", text := "hello", timestamp := 0,
          speaker := "Speaker 1", seq := 1 }).disconnected = true := by
  refine ⟨?_, ?_, ?_⟩
  · exact (claim_C2_commit_flush_on_stop []
      { id := "x", text := "hello", timestamp := 0,
        speaker := "Speaker 1", seq := 1 } (some 300)).2.2.2.1 300 rfl
      (by omega)
  · exact (claim_C2_commit_flush_on_stop []
      { id := "x", text := "hello", timestamp := 0,
        speaker := "Speaker 1", seq := 1 } (some 2000)).2.2.2.2 2000 rfl
      (by omega)
  · exact (claim_C2_commit_flush_on_stop []
      { id := "x", text := "hello", timestamp := 0,
        speaker := "Speaker 1", seq := 1 } (some 2000)).2.1

/-- C3: over any run of committed events handled at non-decreasing
wall-clock times (as the single-threaded event loop guarantees), the
accumulated segments have strictly increasing sequence counters and
non-decreasing `startOffsetMs` (`timestamp`) in append order. -/
theorem claim_C3_sequence_and_offset_monotone
    (startTime : Nat) (events : List (Option String × Nat))
    (htimes : List.Chain' (fun a b => a ≤ b) (events.map Prod.snd)) :
    List.Chain' (fun a b => a.seq < b.seq)
      (RetryHook.processEvents startTime RetryHook.initAcc events).transcripts ∧
    List.Chain' (fun a b => a.timestamp ≤ b.timestamp)
      (RetryHook.processEvents startTime RetryHook.initAcc events).transcripts := by
  have hinv0 : RetryHook.SeqOffsetInv startTime RetryHook.initAcc 0 := by
    refine ⟨?_, ?_, ?_, ?_⟩ <;> simp [RetryHook.initAcc, RetryHook.SeqOffsetInv]
  have hchain0 : List.Chain' (fun a b => a ≤ b) (0 :: events.map Prod.snd) :=
    List.chain'_cons'.mpr ⟨fun y _ => Nat.zero_le y, htimes⟩
  obtain ⟨t1, _, h2, _, h4⟩ :=
    RetryHook.seqOffsetInv_processEvents startTime events RetryHook.initAcc 0
      hinv0 hchain0
  exact ⟨h2, h4⟩

/-- Witness for C3: a concrete run of two committed events at times 5
and 7 satisfies the monotonicity conclusions. -/
theorem claim_C3_sequence_and_offset_monotone_witness :
    List.Chain' (fun a b => a.seq < b.seq)
      (RetryHook.processEvents 0 RetryHook.initAcc
        [(some "a", 5), (some "b", 7)]).transcripts ∧
    List.Chain' (fun a b => a.timestamp ≤ b.timestamp)
      (RetryHook.processEvents 0 RetryHook.initAcc
        [(some "a", 5), (some "b", 7)]).transcripts :=
  claim_C3_sequence_and_offset_monotone 0 [(some "a", 5), (some "b", 7)]
    (by simp [List.chain'_cons])

/-- C10: a committed event whose text is absent, empty or
whitespace-only leaves the accumulator state — transcript list,
sequence counter and speaker count — unchanged. -/
theorem claim_C10_blank_committed_text_ignored
    (startTime now : Nat) (s : RetryHook.AccState) (text : Option String)
    (hblank : ∀ u, text = some u → RetryHook.jsTrim u = "") :
    RetryHook.onCommittedTranscript startTime now s text = s := by
  match text with
  | none => rfl
  | some u =>
    have hu : RetryHook.jsTrim u = "" := hblank u rfl
    simp [RetryHook.onCommittedTranscript, hu]

/-- Witness for C10: the whitespace-only text "  " is dropped. -/
theorem claim_C10_blank_committed_text_ignored_witness :
    RetryHook.onCommittedTranscript 0 42
      { transcriptCounter := 3, transcripts := [], speakersDetected := 2 }
      (some "  ") =
    { transcriptCounter := 3, transcripts := [], speakersDetected := 2 } :=
  claim_C10_blank_committed_text_ignored 0 42
    { transcriptCounter := 3, transcripts := [], speakersDetected := 2 }
    (some "  ") (by intro u hu; cases hu; decide)

/-- C4 (failing-input evaluation): the claim demands that a
`stopRecording` racing an in-flight `startRecording` leaves no
connection open or opening, but the code does not cancel the in-flight
start.  Trace one: stop arrives while the token fetch is pending (after
`getUserMedia` resolved) — `wsRef` is still null, so nothing is closed,
and the resumed start then opens the WebSocket and reaches the
connected state.  Trace two: stop arrives while the socket is
CONNECTING — `stopRecording` only closes a socket whose `readyState` is
`OPEN`, so the connect proceeds and the session ends up connected. -/
theorem claim_C4_stop_during_start_leaves_connection :
    (let s := WsHook.wsOnOpen 0 (WsHook.tokenResolved (WsHook.stopRecording
        (WsHook.micResolved (WsHook.startBegin WsHook.initHook))))
     s.ws = some WsHook.WsPhase.opened ∧ s.isConnected = true) ∧
    (let s := WsHook.wsOnOpen 0 (WsHook.stopRecording (WsHook.tokenResolved
        (WsHook.micResolved (WsHook.startBegin WsHook.initHook))))
     s.ws = some WsHook.WsPhase.opened ∧ s.isConnected = true) := by
  constructor
  · exact ⟨by decide, by decide⟩
  · exact ⟨by decide, by decide⟩

/-- C5 (counterexample): in a connected session with the microphone
live, a backend error event records the message but the session does
not tear anything down — the microphone stays active, the socket stays
open and the connected flag stays set, contradicting the claim that the
event becomes terminal and triggers resource teardown. -/
theorem claim_C5_error_event_counterexample :
    (let conn := WsHook.wsOnOpen 0 (WsHook.tokenResolved (WsHook.micResolved
        (WsHook.startBegin WsHook.initHook)))
     let after := WsHook.wsOnMessage 5 conn
        { messageType := "error", text := none, errorField := some "boom" }
     after.error = some "boom" ∧ after.isConnected = true ∧
       after.micActive = true ∧ after.ws = some WsHook.WsPhase.opened) := by
  refine ⟨by decide, by decide, by decide, by decide⟩

/-- C5 (amended): a backend error event with a non-empty `error` field
records the backend-supplied message and nothing else: the session stays
in whatever connection state it was in, the microphone and socket are
untouched, and no retry happens — teardown occurs only when the socket
closes. -/
theorem claim_C5_error_event_amended (now : Nat) (s : WsHook.HookState)
    (m : String) (hm : m ≠ "") :
    (WsHook.wsOnMessage now s
        { messageType := "error", text := none, errorField := some m }).error =
      some m ∧
    (WsHook.wsOnMessage now s
        { messageType := "error", text := none, errorField := some m }).isConnected =
      s.isConnected ∧
    (WsHook.wsOnMessage now s
        { messageType := "error", text := none, errorField := some m }).micActive =
      s.micActive ∧
    (WsHook.wsOnMessage now s
        { messageType := "error", text := none, errorField := some m }).ws = s.ws ∧
    (WsHook.wsOnMessage now s
        { messageType := "error", text := none, errorField := some m }).streamRef =
      s.streamRef ∧
    (WsHook.wsOnMessage now s
        { messageType := "error", text := none, errorField := some m }).transcripts =
      s.transcripts := by
  simp [WsHook.wsOnMessage, WsHook.truthy, hm]

/-- Witness for the amended C5 at a concrete connected state. -/
theorem claim_C5_error_event_amended_witness :
    (WsHook.wsOnMessage 0 WsHook.initHook
        { messageType := "error", text := none, errorField := some "boom" }).error =
      some "boom" ∧
    (WsHook.wsOnMessage 0 WsHook.initHook
        { messageType := "error", text := none, errorField := some "boom" }).isConnected =
      WsHook.initHook.isConnected ∧
    (WsHook.wsOnMessage 0 WsHook.initHook
        { messageType := "error", text := none, errorField := some "boom" }).micActive =
      WsHook.initHook.micActive ∧
    (WsHook.wsOnMessage 0 WsHook.initHook
        { messageType := "error", text := none, errorField := some "boom" }).ws =
      WsHook.initHook.ws ∧
    (WsHook.wsOnMessage 0 WsHook.initHook
        { messageType := "error", text := none, errorField := some "boom" }).streamRef =
      WsHook.initHook.streamRef ∧
    (WsHook.wsOnMessage 0 WsHook.initHook
        { messageType := "error", text := none, errorField := some "boom" }).transcripts =
      WsHook.initHook.transcripts :=
  claim_C5_error_event_amended 0 WsHook.initHook "boom" (by decide)

/-- C6 (counterexample): for committed events carrying the backend
speaker identifiers A, B, A, C, the handler of the first
src/unnamed/part_004 document produces the labels A, B, A, C — the
identifier itself, verbatim — and not
Speaker 1, Speaker 2, Speaker 1, Speaker 3 as claimed. -/
theorem claim_C6_speaker_identifier_counterexample :
    ((WsLegacy.runCommitted WsLegacy.initL
        [("t1", "A"), ("t2", "B"), ("t3", "A"), ("t4", "C")]).transcripts.map
        (fun g => g.speaker)) = ["A", "B", "A", "C"] ∧
    (["A", "B", "A", "C"] : List String) ≠
      ["Speaker 1", "Speaker 2", "Speaker 1", "Speaker 3"] := by
  exact ⟨by decide, by decide⟩

/-- C6 (amended): a committed event carrying a non-empty backend
speaker identifier appends a segment whose display label is that
identifier verbatim; hence the same identifier always maps to the same
label within a session, but no first-seen "Speaker N" renumbering is
performed. -/
theorem claim_C6_speaker_identifier_amended (s : WsLegacy.LState)
    (now : Nat) (text sp : String) (htext : text ≠ "") (hsp : sp ≠ "") :
    (WsLegacy.onMessage now s (WsLegacy.committedMsg text sp)).transcripts =
      s.transcripts ++
        [{ id := "", text := text, timestamp := now - s.startTime,
           speaker := sp }] := by
  simp [WsLegacy.onMessage, WsLegacy.committedMsg, WsHook.truthy,
    WsHook.insertUnique, htext, hsp]

/-- Witness for the amended C6: one committed event with identifier "A"
on a fresh session appends a segment labelled "A". -/
theorem claim_C6_speaker_identifier_amended_witness :
    (WsLegacy.onMessage 7 WsLegacy.initL
        (WsLegacy.committedMsg "hello" "A")).transcripts =
      WsLegacy.initL.transcripts ++
        [{ id := "", text := "hello", timestamp := 7 - WsLegacy.initL.startTime,
           speaker := "A" }] :=
  claim_C6_speaker_identifier_amended WsLegacy.initL 7 "hello" "A"
    (by decide) (by decide)

/-- C7 (counterexample): in src/src/hooks/useAudioRecording.ts the
committed-transcript handler labels the n-th segment
`Speaker (speakerSet.size + 1)` with no modulo, so a run of five
identifier-less committed events is labelled Speaker 1 .. Speaker 5,
while the claimed rotation would label the 5th segment
`Speaker ((5 - 1) % 4 + 1)` = Speaker 1. -/
theorem claim_C7_rotation_counterexample :
    (((List.range 5).foldl
        (fun s i => WsHook.wsOnMessage 0 s
          { messageType := "committed_transcript",
            text := some ("t" ++ toString i), errorField := none })
        (WsHook.wsOnOpen 0 (WsHook.tokenResolved (WsHook.micResolved
          (WsHook.startBegin WsHook.initHook))))).transcripts.map
        (fun g => g.speaker)) =
      ["Speaker 1", "Speaker 2", "Speaker 3", "Speaker 4", "Speaker 5"] ∧
    ("Speaker 5" : String) ≠ "Speaker " ++ toString ((5 - 1) % 4 + 1) := by
  exact ⟨by decide, by decide⟩

/-- C7 (amended): in the `appendTranscript`-based implementation of
src/unnamed/part_004 the n-th committed segment (sequence n) is indeed
labelled by the rotation `Speaker ((n - 1) % 4 + 1)`; the
useAudioRecording.ts implementation instead labels it `Speaker n`
without rotation. -/
theorem claim_C7_rotation_amended (startTime : Nat)
    (events : List (Option String × Nat)) (g : RetryHook.Segment)
    (hg : g ∈ (RetryHook.processEvents startTime RetryHook.initAcc
      events).transcripts) :
    g.speaker = "Speaker " ++ toString ((g.seq - 1) % 4 + 1) :=
  RetryHook.speakerRotation_processEvents startTime events RetryHook.initAcc
    (by simp [RetryHook.initAcc]) g hg

/-- Witness for the amended C7: the single segment of a one-event run
carries sequence 1 and label Speaker 1. -/
theorem claim_C7_rotation_amended_witness :
    ({ id := "transcript-1-3", text := "hi", timestamp := 3,
       speaker := "Speaker 1", seq := 1 } : RetryHook.Segment).speaker =
      "Speaker " ++ toString
        ((({ id := "transcript-1-3", text := "hi", timestamp := 3,
             speaker := "Speaker 1", seq := 1 } : RetryHook.Segment).seq - 1)
          % 4 + 1) :=
  claim_C7_rotation_amended 0 [(some "hi", 3)]
    { id := "transcript-1-3", text := "hi", timestamp := 3,
      speaker := "Speaker 1", seq := 1 } (by decide)

/-- C8: the PCM encoder clamps every sample to [-1, 1] and scales the
clamped value by `s < 0 ? s * 32768 : s * 32767`; the value stored into
the Int16Array (truncation toward zero) therefore always lies in the
signed 16-bit range, with no overflow at either boundary. -/
theorem claim_C8_sample_clamp_no_overflow (x : ℚ) :
    -32768 ≤ WsHook.toInt16 x ∧ WsHook.toInt16 x ≤ 32767 := by
  have hc1 : (-1 : ℚ) ≤ WsHook.clampSample x := le_max_left _ _
  have hc2 : WsHook.clampSample x ≤ 1 :=
    max_le (by norm_num) (min_le_left _ _)
  by_cases h : WsHook.clampSample x < 0
  · have hscale : WsHook.scaleSample x = WsHook.clampSample x * 32768 := by
      simp [WsHook.scaleSample, h]
    have hlo : (-32768 : ℚ) ≤ WsHook.scaleSample x := by
      rw [hscale]
      nlinarith
    have hhi : WsHook.scaleSample x ≤ 0 := by
      rw [hscale]
      nlinarith
    have hneg : ¬ (0 ≤ WsHook.scaleSample x) ∨ WsHook.scaleSample x = 0 := by
      rcases lt_or_eq_of_le hhi with h1 | h1
      · exact Or.inl (not_le.mpr h1)
      · exact Or.inr h1
    rcases hneg with h1 | h1
    · rw [WsHook.toInt16, if_neg h1]
      constructor
      · have := Int.ceil_le_ceil (α := ℚ) hlo
        simpa using this
      · have : (⌈WsHook.scaleSample x⌉ : ℤ) ≤ 0 :=
          Int.ceil_le.mpr (by exact_mod_cast hhi)
        omega
    · rw [WsHook.toInt16, if_pos (by rw [h1])]
      rw [h1]
      norm_num
  · have h0 : (0 : ℚ) ≤ WsHook.clampSample x := not_lt.mp h
    have hscale : WsHook.scaleSample x = WsHook.clampSample x * 32767 := by
      simp [WsHook.scaleSample, h]
    have hlo : (0 : ℚ) ≤ WsHook.scaleSample x := by
      rw [hscale]
      positivity
    have hhi : WsHook.scaleSample x ≤ 32767 := by
      rw [hscale]
      nlinarith
    rw [WsHook.toInt16, if_pos hlo]
    constructor
    · have : (0 : ℤ) ≤ ⌊WsHook.scaleSample x⌋ :=
        Int.floor_nonneg.mpr hlo
      omega
    · have := Int.floor_le_floor (α := ℚ) hhi
      simpa using this

/-- C9: releasing resources is idempotent — a second `cleanupAudio` and
a second `stopRecording` on the same session state are no-ops relative
to the first call (and the embedding is a total function: no throw). -/
theorem claim_C9_release_idempotent (s : WsHook.HookState) :
    WsHook.cleanupAudio (WsHook.cleanupAudio s) = WsHook.cleanupAudio s ∧
    WsHook.stopRecording (WsHook.stopRecording s) = WsHook.stopRecording s := by
  constructor
  · simp [WsHook.cleanupAudio]
  · cases s
    simp only [WsHook.stopRecording, WsHook.cleanupAudio]
    split_ifs <;> simp_all
